import Mathlib

/-!
Verification of the `tf2schema` schema manager
(`src/tf2schema/schema/manager.py`) against its specification.

The Python code is asynchronous and effectful (HTTP, file I/O, wall-clock
time).  We embed it shallowly: every effect is passed in explicitly as data.

* Wall-clock instants (`time.time()`, floats in Python) are modelled as
  integers; only their ordering and differences matter here.
* The outcome of each I/O action (reading the cache file, each HTTP
  endpoint's parsed response) is supplied by an environment record; the
  embedded functions compute exactly what the Python control flow does with
  those outcomes.
* Python exceptions are modelled with `Except PyErr`; state mutation of the
  manager (`self.schema = ...`) is explicit state passing.
* JSON / VDF documents are modelled by the inductive `JVal`; Python `dict`s
  are association lists in insertion order, matching Python's ordered-dict
  semantics (`dictSet` updates in place or appends, as Python assignment
  does).
-/

namespace TF2Schema

/-- Python exceptions that the manager's code paths can raise. -/
inductive PyErr where
  | fileNotFound
  | valueError (msg : String)
  | httpStatusError (code : Nat)
  | keyError (key : String)
  | jsonDecodeError
  | timeoutError
  /-- Raised when a local variable is referenced before assignment
      (Python `UnboundLocalError`, carrying the variable name). -/
  | unboundLocalError (name : String)
  deriving DecidableEq, Repr

/-- JSON-like documents (the parsed form of HTTP responses, the cache file
and VDF trees). -/
inductive JVal where
  | null
  | str (s : String)
  | num (n : Int)
  | arr (elems : List JVal)
  | obj (fields : List (String × JVal))
  deriving Repr

/-- Python ordered-dict assignment `d[k] = v` on an association list:
update the existing binding in place, else append. -/
def dictSet {α : Type} : List (String × α) → String → α → List (String × α)
  | [], k, v => [(k, v)]
  | (k', v') :: rest, k, v =>
    if k' = k then (k, v) :: rest else (k', v') :: dictSet rest k v

/-- Python `k in d` on an association list. -/
def dictHas {α : Type} (d : List (String × α)) (k : String) : Bool :=
  d.any (fun p => p.1 = k)

/-- Python `del d[k]`: removes the binding of `k`, raising `KeyError` if
`k` is absent. -/
def dictDel {α : Type} : List (String × α) → String → Except PyErr (List (String × α))
  | [], k => .error (.keyError k)
  | (k', v') :: rest, k =>
    if k' = k then .ok rest
    else (dictDel rest k).map (fun d => (k', v') :: d)

/-- A `Schema` object as constructed by `Schema(raw, fetch_time)`:
the raw document plus the fetch timestamp (seconds since epoch). -/
structure Schema where
  raw : JVal
  fetch_time : Int
  deriving Repr

/-- The mutable configuration and state of a `SchemaManager` instance.
`file_path` itself is irrelevant to the verified claims (only whether the
path exists, which lives in the file-system environment), so it is omitted.
`update_interval` is `update_interval.total_seconds()` as an integer. -/
structure Manager where
  steam_api_key : Option String
  save_to_file : Bool
  update_interval : Int
  schema : Option Schema

/-- Contents of the cache file once read and `json.loads`-parsed:
the `raw` and `fetch_time` entries of the stored JSON object. -/
structure FileData where
  raw : JVal
  fetch_time : Int
  deriving Repr

/-- The file-system as seen by `_get_schema_from_file`:
`none` means `self.file_path.exists()` is false; `some (.error e)` means the
file exists but reading/parsing it raises `e` (e.g. a JSON decode error);
`some (.ok d)` means it parses to the document `d`. -/
structure FileSys where
  fileOnDisk : Option (Except PyErr FileData)

/-- Outcomes of the four concurrent sub-fetches awaited by `fetch_schema`,
together with the `time.time()` instant at which the snapshot is built.
Each field is what the corresponding coroutine would return or raise. -/
structure NetEnv where
  items : Except PyErr (List JVal)
  overview : Except PyErr (List (String × JVal))
  paint_kits : Except PyErr (List (String × JVal))
  items_game : Except PyErr JVal
  fetch_now : Int

/-- `asyncio.gather` over four awaitables (without `return_exceptions`):
if any sub-task raises, the gather raises that failure; the temporal
nondeterminism of which failure surfaces first is resolved here by argument
order.  No partial tuple is ever produced. -/
def gather4 {α β γ δ : Type} (a : Except PyErr α) (b : Except PyErr β)
    (c : Except PyErr γ) (d : Except PyErr δ) : Except PyErr (α × β × γ × δ) :=
  match a with
  | .error e => .error e
  | .ok xa =>
    match b with
    | .error e => .error e
    | .ok xb =>
      match c with
      | .error e => .error e
      | .ok xc =>
        match d with
        | .error e => .error e
        | .ok xd => .ok (xa, xb, xc, xd)

/-- `SchemaManager.fetch_schema`: gather the four sub-fetches, then build
`Schema({"schema": {**schema_overview, "items": items, "paintkits":
paint_kits}, "items_game": items_game}, time.time())` and assign it to
`self.schema`.  Returns the raised-or-returned value together with the
manager state afterwards.  (`_save_schema_to_file` writes the file but does
not touch `self.schema`, so it is not modelled.) -/
def Manager.fetch_schema (m : Manager) (net : NetEnv) :
    Except PyErr Schema × Manager :=
  match gather4 net.items net.overview net.paint_kits net.items_game with
  | .error e => (.error e, m)
  | .ok (items, schema_overview, paint_kits, items_game) =>
    let inner := dictSet (dictSet schema_overview "items" (JVal.arr items))
      "paintkits" (JVal.obj paint_kits)
    let s : Schema :=
      { raw := JVal.obj [("schema", JVal.obj inner), ("items_game", items_game)],
        fetch_time := net.fetch_now }
    (.ok s, { m with schema := some s })

/-- `SchemaManager._get_schema_from_file`: raise `FileNotFoundError` if the
path does not exist, else read and `json.loads` the contents. -/
def getSchemaFileRaw (fs : FileSys) : Except PyErr FileData :=
  match fs.fileOnDisk with
  | none => .error .fileNotFound
  | some r => r

/-- `SchemaManager.get_schema_from_file`: load the file document, build
`Schema(data['raw'], data['fetch_time'])`, assign it to `self.schema` and
return it.  On failure the manager state is untouched. -/
def Manager.get_schema_from_file (m : Manager) (fs : FileSys) :
    Except PyErr Schema × Manager :=
  match getSchemaFileRaw fs with
  | .error e => (.error e, m)
  | .ok d =>
    let s : Schema := { raw := d.raw, fetch_time := d.fetch_time }
    (.ok s, { m with schema := some s })

/-- Result of a call to `SchemaManager.get`: the returned value or raised
exception, the manager state afterwards, and whether the network aggregate
fetch (`fetch_schema`) was invoked. -/
structure GetOut where
  result : Except PyErr Schema
  state : Manager
  fetched : Bool

/-- `SchemaManager.get`: try `get_schema_from_file`; a `FileNotFoundError`
is re-raised when `force_files` and otherwise treated as a cache miss
(`schema = None`); any other load error propagates.  With `force_files` the
loaded schema is returned directly.  Otherwise, if there is no cached
schema or `time.time() - schema.fetch_time > update_interval`, the network
aggregate `fetch_schema` runs; else the cached schema is returned.
`now` is the `time.time()` value read at the staleness check. -/
def Manager.get (m : Manager) (fs : FileSys) (net : NetEnv) (now : Int)
    (force_files : Bool) : GetOut :=
  match m.get_schema_from_file fs with
  | (.ok schema, m') =>
    if force_files then
      { result := .ok schema, state := m', fetched := false }
    else if now - schema.fetch_time > m.update_interval then
      let (r, m'') := m'.fetch_schema net
      { result := r, state := m'', fetched := true }
    else
      { result := .ok schema, state := m', fetched := false }
  | (.error e, m') =>
    if e = .fileNotFound then
      if force_files then
        { result := .error e, state := m', fetched := false }
      else
        -- schema = None, so the staleness test's first disjunct fires
        let (r, m'') := m'.fetch_schema net
        { result := r, state := m'', fetched := true }
    else
      { result := .error e, state := m', fetched := false }

/-! ## `_fetch_page`: single-page fetch with bounded retries -/

/-- What one HTTP attempt yields: the status code, the value of
`response.json()` (`none` models JSON `null`) and `response.text`
(`none` models a `None` text). -/
structure Resp where
  status : Nat
  jsonVal : Option JVal
  text : Option String

/-- The body of one iteration of the retry loop in `_fetch_page`:
`client.send` returns `r`; `raise_for_status` raises `HTTPStatusError` on a
non-2xx status; then `if response.json() is None and response.text is None:
raise ValueError("No data received")`; otherwise the response is returned. -/
def attemptResult (r : Resp) : Except PyErr Resp :=
  if ¬ (200 ≤ r.status ∧ r.status ≤ 299) then .error (.httpStatusError r.status)
  else if r.jsonVal.isNone ∧ r.text.isNone then .error (.valueError "No data received")
  else .ok r

/-- The retry loop of `_fetch_page`, with `attempts i` the outcome of the
`i`-th `client.send`.  A failing attempt is caught by
`except (httpx.HTTPStatusError, ValueError) as e`, logged, slept on, and
the loop continues; per Python 3 semantics the binding of `e` is cleared
when the except clause exits.  When the `for` loop over `range(retries)`
exhausts, the trailing `raise e` references `e`, which is at that point an
unbound local variable, so it raises `UnboundLocalError`. -/
def fetchPageLoop (attempts : Nat → Resp) : Nat → Nat → Except PyErr Resp
  | _, 0 => .error (.unboundLocalError "e")
  | i, n + 1 =>
    match attemptResult (attempts i) with
    | .ok r => .ok r
    | .error _ => fetchPageLoop attempts (i + 1) n

/-- `SchemaManager._fetch_page` (default `retries=5`), abstracting the HTTP
transport into the per-attempt outcomes `attempts`. -/
def fetch_page (attempts : Nat → Resp) (retries : Nat) : Except PyErr Resp :=
  fetchPageLoop attempts 0 retries

/-! ## `_fetch_items_from_steam`: credential gate and pagination -/

/-- One parsed page of the item-listing endpoint: `data["result"]["items"]`
and the optional continuation token `data["result"]["next"]`. -/
structure ItemsPage where
  items : List JVal
  next : Option String

/-- The `while "next" in data["result"]` loop of `_fetch_items_from_steam`.
`server start` is the parsed page the endpoint returns for the request
whose `params["start"]` is `start` (no `start` key on the first request).
`data` is the page most recently fetched, `acc` the accumulated `items`,
`starts` the trace of `start` parameters of the requests issued so far.
The Python loop is unbounded; `fuel` bounds the remaining iterations and
`none` models exceeding it (non-termination within the bound). -/
def fetchItemsLoop (server : Option String → ItemsPage) :
    Nat → ItemsPage → List JVal → List (Option String) →
    Option (List JVal × List (Option String))
  | _, { next := none, .. }, acc, starts => some (acc, starts)
  | 0, { next := some _, .. }, _, _ => none
  | n + 1, { next := some t, .. }, acc, starts =>
    let data := server (some t)
    fetchItemsLoop server n data (acc ++ data.items) (starts ++ [some t])

/-- `SchemaManager._fetch_items_from_steam`: raise
`ValueError("Steam API key is required to get schema from Steam")` when
`self.steam_api_key is None`, before any request; otherwise fetch the
first page (no `start` parameter) and follow continuation tokens.
Returns the result together with the trace of `start` parameters used;
a missing key issues no request at all (empty trace). -/
def fetch_items_from_steam (key : Option String)
    (server : Option String → ItemsPage) (fuel : Nat) :
    Option (Except PyErr (List JVal) × List (Option String)) :=
  match key with
  | none =>
    some (.error (.valueError "Steam API key is required to get schema from Steam"), [])
  | some _ =>
    let data := server none
    (fetchItemsLoop server fuel data data.items [none]).map
      (fun p => (.ok p.1, p.2))

/-! ## `_fetch_overview`: no credential gate -/

/-- `SchemaManager._fetch_overview`, abstracting `_fetch_page` plus
`response.json()` into `resp`.  Note the source performs **no**
`steam_api_key is None` check: the request is issued regardless of `key`
(httpx serializes a `None` param value as an empty string).  Then
`del data['status']` and the rest of the dict is returned.  The second
component counts the network fetches issued. -/
def fetch_overview (key : Option String)
    (resp : Except PyErr (List (String × JVal))) :
    Except PyErr (List (String × JVal)) × Nat :=
  match resp with
  | .error e => (.error e, 1)
  | .ok data =>
    match dictDel data "status" with
    | .error e => (.error e, 1)
    | .ok data' => (.ok data', 1)

/-! ## `_fetch_paint_kits_from_github`: the paint-kit extraction -/

/-- Python `s.split(sep, 1)[0]`: the characters before the first
occurrence of `sep` (the whole string when `sep` is absent). -/
def beforeFirst (sep : Char) (s : String) : String :=
  String.mk (s.data.takeWhile (fun c => c ≠ sep))

/-- Helper for `splitOnChar`: accumulates the current fragment (reversed). -/
def splitOnCharAux (sep : Char) : List Char → List Char → List String
  | [], cur => [String.mk cur.reverse]
  | c :: cs, cur =>
    if c = sep then String.mk cur.reverse :: splitOnCharAux sep cs []
    else splitOnCharAux sep cs (c :: cur)

/-- Python `s.split(sep)` for a single-character separator. -/
def splitOnChar (sep : Char) (s : String) : List String :=
  splitOnCharAux sep s.data []

/-- Boolean string-prefix test over the underlying character lists
(Python `s.startswith(pre)`). -/
def strStarts : List Char → List Char → Bool
  | _, [] => true
  | [], _ :: _ => false
  | c :: cs, p :: ps => c = p && strStarts cs ps

/-- Decimal digit-string value.  Python `int(s)` raises `ValueError` on a
non-numeric string; every id reaching the sort in the verified inputs is a
numeric key part, for which this agrees with `int`. -/
def pyIntAux : List Char → Nat → Nat
  | [], acc => acc
  | c :: cs, acc => pyIntAux cs (acc * 10 + (c.toNat - 48))

/-- Python `int(s)` on the digit strings that occur as paint-kit ids. -/
def pyInt (s : String) : Int := Int.ofNat (pyIntAux s.data 0)

/-- The filtering pass of `_fetch_paint_kits_from_github` over the
`lang.Tokens` items `(proto, name)` in insertion order:
`parts = proto.split(' ', 1)[0].split('_')`; keep only keys with exactly
three parts whose first part is `"9"`; `definition = parts[1]`; drop the
candidate if `name.startswith(definition + ':')`; collect
`{"id": definition, "name": name}`. -/
def paintKitCandidates (protos : List (String × String)) : List (String × String) :=
  protos.foldr (fun (p : String × String) acc =>
    match splitOnChar '_' (beforeFirst ' ' p.1) with
    | [p0, definition, _p2] =>
      if p0 = "9" then
        if strStarts p.2.data (definition ++ ":").data then acc
        else (definition, p.2) :: acc
      else acc
    | _ => acc) []

/-- Stable insertion of `x` into a list already sorted by `le`: `x` goes
after every element whose key is `≤` its own, preserving the relative
order of equal keys. -/
def insertStable {α : Type} (le : α → α → Bool) (x : α) : List α → List α
  | [] => [x]
  | y :: ys => if le y x then y :: insertStable le x ys else x :: y :: ys

/-- Stable sort (insertion sort), modelling the observable contract of
Python's `list.sort`: sorted by key, equal keys keep their input order. -/
def stableSortBy {α : Type} (le : α → α → Bool) (xs : List α) : List α :=
  xs.foldl (fun acc x => insertStable le x acc) []

/-- `paint_kits.sort(key=lambda x: int(x["id"]))` — Python's stable sort by
numeric id — followed by the deduplication loop: insert `id → name` only
when `name` is not already among the dict's values. -/
def extract_paint_kits (protos : List (String × String)) : List (String × String) :=
  let sorted := stableSortBy (fun a b => pyInt a.1 ≤ pyInt b.1)
    (paintKitCandidates protos)
  sorted.foldl (fun obj pk =>
    if obj.any (fun q => q.2 = pk.2) then obj else dictSet obj pk.1 pk.2) []

/-! ## `wait_for_schema`: polling with timeout -/

/-- The polling loop of `wait_for_schema` in the case where no snapshot is
ever published (`self.has_schema` stays false): each iteration awaits
`asyncio.sleep(0.1)` and then raises `TimeoutError` if the elapsed time
exceeds the timeout.  Time is measured in tenths of a second and each
iteration is taken to advance the clock by exactly one sleep period, so
after `k` sleeps `time.time() - start` is `k` tenths.  `timeoutT` is the
timeout in tenths.  Returns the raised error together with the number of
sleeps performed from the current `elapsed` count. -/
def waitPoll (timeoutT : Nat) (elapsed : Nat) : Except PyErr Unit × Nat :=
  if elapsed + 1 > timeoutT then (.error .timeoutError, 1)
  else
    let r := waitPoll timeoutT (elapsed + 1)
    (r.1, r.2 + 1)
  termination_by timeoutT - elapsed
  decreasing_by omega

/-- `SchemaManager.wait_for_schema` for a manager whose `has_schema` value
is constant during the call (`hasSchema`): with a published snapshot the
`while not self.has_schema` guard fails immediately and the call returns
after zero sleeps; with no snapshot ever published the polling loop runs.
Returns the outcome and the number of `asyncio.sleep(0.1)` calls. -/
def wait_for_schema (hasSchema : Bool) (timeoutT : Nat) : Except PyErr Unit × Nat :=
  if hasSchema then (.ok (), 0) else waitPoll timeoutT 0

/-! ## Theorems -/

/-- C1: if any one of the four sub-fetches of `fetch_schema` raises, then
`fetch_schema` raises one of the sub-fetch failures to its caller and the
manager — in particular its published snapshot `self.schema` — is exactly
what it was before the call; no partial snapshot is ever assigned. -/
theorem fetch_schema_all_or_nothing (m : Manager) (net : NetEnv)
    (h : (∃ e, net.items = .error e) ∨ (∃ e, net.overview = .error e) ∨
         (∃ e, net.paint_kits = .error e) ∨ (∃ e, net.items_game = .error e)) :
    ∃ e : PyErr,
      (net.items = .error e ∨ net.overview = .error e ∨
       net.paint_kits = .error e ∨ net.items_game = .error e) ∧
      m.fetch_schema net = (.error e, m) := by
  cases hi : net.items with
  | error e =>
    exact ⟨e, .inl rfl, by simp [Manager.fetch_schema, gather4, hi]⟩
  | ok xa =>
    cases ho : net.overview with
    | error e =>
      exact ⟨e, .inr (.inl rfl), by simp [Manager.fetch_schema, gather4, hi, ho]⟩
    | ok xb =>
      cases hp : net.paint_kits with
      | error e =>
        exact ⟨e, .inr (.inr (.inl rfl)),
          by simp [Manager.fetch_schema, gather4, hi, ho, hp]⟩
      | ok xc =>
        cases hg : net.items_game with
        | error e =>
          exact ⟨e, .inr (.inr (.inr rfl)),
            by simp [Manager.fetch_schema, gather4, hi, ho, hp, hg]⟩
        | ok xd =>
          rcases h with ⟨e, h⟩ | ⟨e, h⟩ | ⟨e, h⟩ | ⟨e, h⟩ <;> simp_all

/-- Witness for C1: a concrete failing items sub-fetch with the other three
succeeding. -/
theorem fetch_schema_all_or_nothing_witness :
    ((∃ e, (NetEnv.mk (.error (.httpStatusError 500)) (.ok []) (.ok [])
        (.ok .null) 5).items = .error e) ∨
     (∃ e, (NetEnv.mk (.error (.httpStatusError 500)) (.ok []) (.ok [])
        (.ok .null) 5).overview = .error e) ∨
     (∃ e, (NetEnv.mk (.error (.httpStatusError 500)) (.ok []) (.ok [])
        (.ok .null) 5).paint_kits = .error e) ∨
     (∃ e, (NetEnv.mk (.error (.httpStatusError 500)) (.ok []) (.ok [])
        (.ok .null) 5).items_game = .error e)) ∧
    (∃ e : PyErr,
      ((NetEnv.mk (.error (.httpStatusError 500)) (.ok []) (.ok [])
          (.ok .null) 5).items = .error e ∨
       (NetEnv.mk (.error (.httpStatusError 500)) (.ok []) (.ok [])
          (.ok .null) 5).overview = .error e ∨
       (NetEnv.mk (.error (.httpStatusError 500)) (.ok []) (.ok [])
          (.ok .null) 5).paint_kits = .error e ∨
       (NetEnv.mk (.error (.httpStatusError 500)) (.ok []) (.ok [])
          (.ok .null) 5).items_game = .error e) ∧
      (Manager.mk (some "k") false 86400 none).fetch_schema
          (NetEnv.mk (.error (.httpStatusError 500)) (.ok []) (.ok [])
            (.ok .null) 5) =
        (.error e, Manager.mk (some "k") false 86400 none)) :=
  ⟨.inl ⟨.httpStatusError 500, rfl⟩,
    fetch_schema_all_or_nothing (Manager.mk (some "k") false 86400 none)
      (NetEnv.mk (.error (.httpStatusError 500)) (.ok []) (.ok []) (.ok .null) 5)
      (.inl ⟨.httpStatusError 500, rfl⟩)⟩

/-- C2: for a `get()` call (with `force_files` false) whose cache file
loads successfully: if the loaded snapshot is older than `now` minus the
update interval, `get` runs the network aggregate fetch and any snapshot it
returns has a strictly newer `fetch_time` than the cached one (assuming a
monotone clock, `now ≤ fetch_now`, and a nonnegative interval); if the
cached snapshot is within the interval, `get` returns it and performs no
network fetch at all. -/
theorem get_staleness_policy (m : Manager) (fs : FileSys) (net : NetEnv)
    (now : Int) (fd : FileData)
    (hfile : fs.fileOnDisk = some (.ok fd))
    (hclock : now ≤ net.fetch_now)
    (hint : 0 ≤ m.update_interval) :
    (now - fd.fetch_time > m.update_interval →
      (m.get fs net now false).fetched = true ∧
      ∀ s, (m.get fs net now false).result = .ok s →
        fd.fetch_time < s.fetch_time) ∧
    (now - fd.fetch_time ≤ m.update_interval →
      (m.get fs net now false).fetched = false ∧
      (m.get fs net now false).result = .ok ⟨fd.raw, fd.fetch_time⟩) := by
  constructor
  · intro hstale
    cases hg : gather4 net.items net.overview net.paint_kits net.items_game with
    | error e =>
      simp [Manager.get, Manager.get_schema_from_file, getSchemaFileRaw,
        hfile, hstale, Manager.fetch_schema, hg]
    | ok v =>
      simp [Manager.get, Manager.get_schema_from_file, getSchemaFileRaw,
        hfile, hstale, Manager.fetch_schema, hg]
      omega
  · intro hfresh
    have hcond : ¬ (now - fd.fetch_time > m.update_interval) := by omega
    simp [Manager.get, Manager.get_schema_from_file, getSchemaFileRaw, hfile,
      hcond]

/-- Witness for C2: concrete manager, cache document and environment
satisfying the clock and interval side conditions. -/
theorem get_staleness_policy_witness :
    (FileSys.mk (some (.ok ⟨JVal.obj [], 0⟩))).fileOnDisk =
        some (.ok (⟨JVal.obj [], 0⟩ : FileData)) ∧
    (200 : Int) ≤ (NetEnv.mk (.ok []) (.ok []) (.ok []) (.ok .null) 250).fetch_now ∧
    (0 : Int) ≤ (Manager.mk (some "k") false 100 none).update_interval ∧
    (((200 : Int) - (0 : Int) > (100 : Int) →
      ((Manager.mk (some "k") false 100 none).get
          (FileSys.mk (some (.ok ⟨JVal.obj [], 0⟩)))
          (NetEnv.mk (.ok []) (.ok []) (.ok []) (.ok .null) 250) 200
          false).fetched = true ∧
      ∀ s, ((Manager.mk (some "k") false 100 none).get
          (FileSys.mk (some (.ok ⟨JVal.obj [], 0⟩)))
          (NetEnv.mk (.ok []) (.ok []) (.ok []) (.ok .null) 250) 200
          false).result = .ok s → (0 : Int) < s.fetch_time) ∧
    ((200 : Int) - (0 : Int) ≤ (100 : Int) →
      ((Manager.mk (some "k") false 100 none).get
          (FileSys.mk (some (.ok ⟨JVal.obj [], 0⟩)))
          (NetEnv.mk (.ok []) (.ok []) (.ok []) (.ok .null) 250) 200
          false).fetched = false ∧
      ((Manager.mk (some "k") false 100 none).get
          (FileSys.mk (some (.ok ⟨JVal.obj [], 0⟩)))
          (NetEnv.mk (.ok []) (.ok []) (.ok []) (.ok .null) 250) 200
          false).result = .ok ⟨JVal.obj [], 0⟩)) :=
  ⟨rfl, by decide, by decide,
    get_staleness_policy (Manager.mk (some "k") false 100 none)
      (FileSys.mk (some (.ok ⟨JVal.obj [], 0⟩)))
      (NetEnv.mk (.ok []) (.ok []) (.ok []) (.ok .null) 250) 200
      ⟨JVal.obj [], 0⟩ rfl (by decide) (by decide)⟩

/-- C3 (code bug): with every attempt failing retryably (here: HTTP 500 on
all five default attempts), `_fetch_page` does *not* re-raise the last
observed failure.  The `raise e` after the `for` loop references the
binding made by `except ... as e`, which Python 3 clears when each except
clause exits, so the call raises `UnboundLocalError` instead of the final
`HTTPStatusError`. -/
theorem fetch_page_exhausted_raises_unbound_local :
    fetch_page (fun _ => { status := 500, jsonVal := some (JVal.num 0), text := some "" }) 5 =
      .error (.unboundLocalError "e") := rfl

/-- C4 counterexample: on the claim's exact input, the extraction does not
return `{"100": "A"}`: the key `"9_300_100:"` has id `300` and name
`"100:"`, and the placeholder filter compares the name against the key's
own id (`"300:"`), so this entry is *not* dropped. -/
theorem extract_paint_kits_example_counterexample :
    extract_paint_kits
        [("9_100_foo", "A"), ("9_100_bar", "A"), ("8_200_baz", "X"),
         ("9_300_100:", "100:")] ≠
      [("100", "A")] := by decide

/-- C4 amended: on the claim's input the extraction returns
`{"100": "A", "300": "100:"}` — the non-"9" key is dropped and the
duplicate name keeps only the first id, but the `"9_300_100:"` entry
survives because its name `"100:"` does not start with its own id prefix
`"300:"`. -/
theorem extract_paint_kits_example :
    extract_paint_kits
        [("9_100_foo", "A"), ("9_100_bar", "A"), ("8_200_baz", "X"),
         ("9_300_100:", "100:")] =
      [("100", "A"), ("300", "100:")] := by decide

/-- The paginated-source shape of claim C5, rooted at the page `d` most
recently fetched: `d` is followed by the pages `ps`, each page before the
last carries a `next` token under which the server serves the following
page, and the last page omits `next`. -/
def PageChain (server : Option String → ItemsPage) : ItemsPage → List ItemsPage → Prop
  | d, [] => d.next = none
  | d, p :: rest =>
    (∃ t, d.next = some t ∧ server (some t) = p) ∧ PageChain server p rest

/-- The `start` tokens under which the pages after `d` are requested:
each page's successor is requested under that page's `next` token. -/
def chainTrace : ItemsPage → List ItemsPage → List (Option String)
  | _, [] => []
  | d, p :: rest => d.next :: chainTrace p rest

/-- `chainTrace` lists the `next` fields of every page but the last. -/
theorem chainTrace_eq_dropLast (d : ItemsPage) (ps : List ItemsPage) :
    chainTrace d ps = ((d :: ps).dropLast.map ItemsPage.next) := by
  induction ps generalizing d with
  | nil => rfl
  | cons p rest ih => simp [chainTrace, List.dropLast, ih]

/-- The pagination loop follows a page chain to its end, concatenating the
items of the remaining pages in order and requesting each successive page
with the previous page's `next` token. -/
theorem fetchItemsLoop_chain (server : Option String → ItemsPage) :
    ∀ (ps : List ItemsPage) (d : ItemsPage) (acc : List JVal)
      (starts : List (Option String)) (fuel : Nat),
      PageChain server d ps → ps.length ≤ fuel →
      fetchItemsLoop server fuel d acc starts =
        some (acc ++ (ps.map ItemsPage.items).flatten,
          starts ++ chainTrace d ps) := by
  intro ps
  induction ps with
  | nil =>
    intro d acc starts fuel hchain _
    have hnext : d.next = none := hchain
    cases d with
    | mk items next =>
      cases fuel <;> simp_all [fetchItemsLoop, chainTrace]
  | cons p rest ih =>
    intro d acc starts fuel hchain hfuel
    obtain ⟨⟨t, hnext, hserve⟩, hrest⟩ := hchain
    cases fuel with
    | zero => simp at hfuel
    | succ n =>
      cases d with
      | mk items next =>
        simp only at hnext
        subst hnext
        simp only [fetchItemsLoop]
        rw [hserve]
        have step := ih p (acc ++ p.items) (starts ++ [some t]) n hrest
          (by simpa using hfuel)
        rw [step]
        simp [chainTrace]

/-- C5: for a paginated item-listing source whose first page (served for
the start-less request) is followed, via its `next` tokens, by further
pages of which only the last omits `next`, `_fetch_items_from_steam`
requests page `k+1` with the `start` parameter set to the `next` token of page `k`
token (the request trace is `none` followed by the `next` tokens of all
pages but the last), and returns exactly the concatenation of the `items` lists of all pages in page order. -/
theorem fetch_items_pagination (key : String)
    (server : Option String → ItemsPage) (rest : List ItemsPage) (fuel : Nat)
    (hchain : PageChain server (server none) rest)
    (hfuel : rest.length ≤ fuel) :
    fetch_items_from_steam (some key) server fuel =
      some (.ok (((server none :: rest).map ItemsPage.items).flatten),
        none :: (server none :: rest).dropLast.map ItemsPage.next) := by
  have step := fetchItemsLoop_chain server rest (server none)
    (server none).items [none] fuel hchain hfuel
  simp only [fetch_items_from_steam, step, Option.map_some]
  rw [← chainTrace_eq_dropLast]
  simp

/-- Witness for C5: a three-page source with tokens `"t1"`, `"t2"`. -/
theorem fetch_items_pagination_witness :
    PageChain
      (fun s => match s with
        | none => ItemsPage.mk [JVal.num 1] (some "t1")
        | some "t1" => ItemsPage.mk [JVal.num 2] (some "t2")
        | some "t2" => ItemsPage.mk [JVal.num 3] none
        | some _ => ItemsPage.mk [] none)
      ((fun s => match s with
        | none => ItemsPage.mk [JVal.num 1] (some "t1")
        | some "t1" => ItemsPage.mk [JVal.num 2] (some "t2")
        | some "t2" => ItemsPage.mk [JVal.num 3] none
        | some _ => ItemsPage.mk [] none) none)
      [ItemsPage.mk [JVal.num 2] (some "t2"), ItemsPage.mk [JVal.num 3] none] ∧
    fetch_items_from_steam (some "k")
      (fun s => match s with
        | none => ItemsPage.mk [JVal.num 1] (some "t1")
        | some "t1" => ItemsPage.mk [JVal.num 2] (some "t2")
        | some "t2" => ItemsPage.mk [JVal.num 3] none
        | some _ => ItemsPage.mk [] none) 2 =
      some (.ok [JVal.num 1, JVal.num 2, JVal.num 3],
        [none, some "t1", some "t2"]) := by
  refine ⟨⟨⟨"t1", rfl, rfl⟩, ⟨"t2", rfl, rfl⟩, rfl⟩, ?_⟩
  have h := fetch_items_pagination "k"
    (fun s => match s with
      | none => ItemsPage.mk [JVal.num 1] (some "t1")
      | some "t1" => ItemsPage.mk [JVal.num 2] (some "t2")
      | some "t2" => ItemsPage.mk [JVal.num 3] none
      | some _ => ItemsPage.mk [] none)
    [ItemsPage.mk [JVal.num 2] (some "t2"), ItemsPage.mk [JVal.num 3] none] 2
    ⟨⟨"t1", rfl, rfl⟩, ⟨"t2", rfl, rfl⟩, rfl⟩ (by simp)
  simpa using h

/-- C6 counterexample: the overview fetch is not credential-gated.  With
`steam_api_key` absent and a server that answers the overview request with
`{"status": 1}`, `_fetch_overview` issues one network fetch (second
component `1`, not `0`) and returns successfully — no configuration error
is raised before the network attempt. -/
theorem fetch_overview_missing_key_counterexample :
    (fetch_overview none (.ok [("status", JVal.num 1)])).2 = 1 ∧
    (fetch_overview none (.ok [("status", JVal.num 1)])).1 = .ok [] :=
  ⟨rfl, rfl⟩

/-- C6 amended: only the item-listing fetch is credential-gated.  With
`steam_api_key` absent, `_fetch_items_from_steam` raises
`ValueError("Steam API key is required to get schema from Steam")` before
any network request (its request trace is empty) and without retrying,
whereas `_fetch_overview` always issues its network request — exactly one
initial fetch — whatever the key and response. -/
theorem credential_gate_items_only (server : Option String → ItemsPage)
    (fuel : Nat) (key : Option String)
    (resp : Except PyErr (List (String × JVal))) :
    fetch_items_from_steam none server fuel =
      some (.error (.valueError "Steam API key is required to get schema from Steam"), []) ∧
    (fetch_overview key resp).2 = 1 := by
  refine ⟨rfl, ?_⟩
  cases resp with
  | error e => rfl
  | ok data =>
    cases h : dictDel data "status" <;> simp [fetch_overview, h]

/-- C7: in file-forced mode with a missing cache file, `get` raises
`FileNotFoundError` and a manager with no published snapshot still has
none afterwards (state remains empty); no network fetch happens. -/
theorem get_force_files_missing_file (m : Manager) (fs : FileSys)
    (net : NetEnv) (now : Int)
    (hschema : m.schema = none) (hfs : fs.fileOnDisk = none) :
    (m.get fs net now true).result = .error .fileNotFound ∧
    (m.get fs net now true).state.schema = none ∧
    (m.get fs net now true).fetched = false := by
  simp [Manager.get, Manager.get_schema_from_file, getSchemaFileRaw, hfs,
    hschema]

/-- Witness for C7: a fresh manager and an empty file system. -/
theorem get_force_files_missing_file_witness :
    (Manager.mk (some "k") false 86400 none).schema = none ∧
    (FileSys.mk none).fileOnDisk = none ∧
    (((Manager.mk (some "k") false 86400 none).get (FileSys.mk none)
        (NetEnv.mk (.ok []) (.ok []) (.ok []) (.ok .null) 5) 7 true).result =
       .error .fileNotFound ∧
     ((Manager.mk (some "k") false 86400 none).get (FileSys.mk none)
        (NetEnv.mk (.ok []) (.ok []) (.ok []) (.ok .null) 5) 7 true).state.schema =
       none ∧
     ((Manager.mk (some "k") false 86400 none).get (FileSys.mk none)
        (NetEnv.mk (.ok []) (.ok []) (.ok []) (.ok .null) 5) 7 true).fetched =
       false) :=
  ⟨rfl, rfl,
    get_force_files_missing_file (Manager.mk (some "k") false 86400 none)
      (FileSys.mk none) (NetEnv.mk (.ok []) (.ok []) (.ok []) (.ok .null) 5)
      7 rfl rfl⟩

/-- The polling loop raises `TimeoutError` after exactly
`timeoutT + 1 - elapsed` further sleeps when `elapsed ≤ timeoutT`. -/
theorem waitPoll_times_out (t : Nat) :
    ∀ (n e : Nat), t - e = n → e ≤ t →
      waitPoll t e = (.error .timeoutError, t + 1 - e) := by
  intro n
  induction n with
  | zero =>
    intro e hn he
    rw [waitPoll]
    have : e + 1 > t := by omega
    simp only [this, if_pos]
    have : t + 1 - e = 1 := by omega
    rw [this]
  | succ n ih =>
    intro e hn he
    rw [waitPoll]
    have hc : ¬ (e + 1 > t) := by omega
    simp only [hc, if_false]
    have step := ih (e + 1) (by omega) (by omega)
    rw [step]
    simp only [Prod.mk.injEq, true_and]
    omega

/-- C8: on a manager where no snapshot is ever published,
`wait_for_schema` terminates by raising `TimeoutError` after exactly
`timeoutT + 1` sleeps of one polling period each — i.e. as soon as the
elapsed time first exceeds the timeout, within one 0.1-second period — and
never returns normally; on a manager with a published snapshot it returns
immediately, after zero sleeps, without raising.  (`timeoutT` is the
timeout in tenths of a second; each loop iteration is taken to advance the
clock by exactly one `asyncio.sleep(0.1)` period.) -/
theorem wait_for_schema_timeout_contract (t : Nat) :
    wait_for_schema false t = (.error .timeoutError, t + 1) ∧
    wait_for_schema true t = (.ok (), 0) := by
  constructor
  · have h := waitPoll_times_out t t 0 (by omega) (by omega)
    simpa [wait_for_schema] using h
  · rfl

/-- C9: a successful file load (`get_schema_from_file`) immediately
replaces the published snapshot with the file snapshot whatever its age;
consequently, when `get()` loads a stale cache file and the network
aggregate fetch then fails, the published snapshot afterwards is the stale
file snapshot (not whatever was published before the call) and the failure
is raised. -/
theorem get_stale_load_publishes_file_snapshot (m : Manager) (fs : FileSys)
    (net : NetEnv) (now : Int) (fd : FileData) (e : PyErr)
    (hfile : fs.fileOnDisk = some (.ok fd))
    (hstale : now - fd.fetch_time > m.update_interval)
    (hfail : gather4 net.items net.overview net.paint_kits net.items_game =
      (.error e : Except PyErr
        (List JVal × List (String × JVal) × List (String × JVal) × JVal))) :
    (m.get_schema_from_file fs).2.schema = some ⟨fd.raw, fd.fetch_time⟩ ∧
    (m.get fs net now false).state.schema = some ⟨fd.raw, fd.fetch_time⟩ ∧
    (m.get fs net now false).result = .error e := by
  refine ⟨by simp [Manager.get_schema_from_file, getSchemaFileRaw, hfile], ?_, ?_⟩ <;>
    simp [Manager.get, Manager.get_schema_from_file, getSchemaFileRaw, hfile,
      hstale, Manager.fetch_schema, hfail]

/-- Witness for C9: a previously published snapshot gets displaced by the
stale file snapshot even though the network fetch fails. -/
theorem get_stale_load_publishes_file_snapshot_witness :
    (FileSys.mk (some (.ok ⟨JVal.obj [], 10⟩))).fileOnDisk =
        some (.ok (⟨JVal.obj [], 10⟩ : FileData)) ∧
    (1000 : Int) - (10 : Int) >
      (Manager.mk (some "k") false 100 (some ⟨JVal.null, 900⟩)).update_interval ∧
    gather4 (NetEnv.mk (.error .jsonDecodeError) (.ok []) (.ok []) (.ok .null) 1000).items
        (NetEnv.mk (.error .jsonDecodeError) (.ok []) (.ok []) (.ok .null) 1000).overview
        (NetEnv.mk (.error .jsonDecodeError) (.ok []) (.ok []) (.ok .null) 1000).paint_kits
        (NetEnv.mk (.error .jsonDecodeError) (.ok []) (.ok []) (.ok .null) 1000).items_game =
      (.error .jsonDecodeError : Except PyErr
        (List JVal × List (String × JVal) × List (String × JVal) × JVal)) ∧
    (((Manager.mk (some "k") false 100 (some ⟨JVal.null, 900⟩)).get_schema_from_file
        (FileSys.mk (some (.ok ⟨JVal.obj [], 10⟩)))).2.schema =
      some ⟨JVal.obj [], 10⟩ ∧
     ((Manager.mk (some "k") false 100 (some ⟨JVal.null, 900⟩)).get
        (FileSys.mk (some (.ok ⟨JVal.obj [], 10⟩)))
        (NetEnv.mk (.error .jsonDecodeError) (.ok []) (.ok []) (.ok .null) 1000)
        1000 false).state.schema = some ⟨JVal.obj [], 10⟩ ∧
     ((Manager.mk (some "k") false 100 (some ⟨JVal.null, 900⟩)).get
        (FileSys.mk (some (.ok ⟨JVal.obj [], 10⟩)))
        (NetEnv.mk (.error .jsonDecodeError) (.ok []) (.ok []) (.ok .null) 1000)
        1000 false).result = .error .jsonDecodeError) :=
  ⟨rfl, by decide, rfl,
    get_stale_load_publishes_file_snapshot
      (Manager.mk (some "k") false 100 (some ⟨JVal.null, 900⟩))
      (FileSys.mk (some (.ok ⟨JVal.obj [], 10⟩)))
      (NetEnv.mk (.error .jsonDecodeError) (.ok []) (.ok []) (.ok .null) 1000)
      1000 ⟨JVal.obj [], 10⟩ .jsonDecodeError rfl (by decide) rfl⟩

/-- C10: in file-forced mode with a cache file that exists and parses,
`get` returns the file snapshot and performs no network fetch, with no
constraint whatsoever on the snapshot `fetch_time` — the freshness check
is skipped entirely. -/
theorem get_force_files_skips_freshness (m : Manager) (fs : FileSys)
    (net : NetEnv) (now : Int) (fd : FileData)
    (hfile : fs.fileOnDisk = some (.ok fd)) :
    (m.get fs net now true).result = .ok ⟨fd.raw, fd.fetch_time⟩ ∧
    (m.get fs net now true).fetched = false := by
  simp [Manager.get, Manager.get_schema_from_file, getSchemaFileRaw, hfile]

/-- Witness for C10: a cache document far older than the update interval
is still returned without a network fetch. -/
theorem get_force_files_skips_freshness_witness :
    (FileSys.mk (some (.ok ⟨JVal.obj [], 0⟩))).fileOnDisk =
        some (.ok (⟨JVal.obj [], 0⟩ : FileData)) ∧
    (((Manager.mk (some "k") false 100 none).get
        (FileSys.mk (some (.ok ⟨JVal.obj [], 0⟩)))
        (NetEnv.mk (.ok []) (.ok []) (.ok []) (.ok .null) 1000000) 1000000
        true).result = .ok ⟨JVal.obj [], 0⟩ ∧
     ((Manager.mk (some "k") false 100 none).get
        (FileSys.mk (some (.ok ⟨JVal.obj [], 0⟩)))
        (NetEnv.mk (.ok []) (.ok []) (.ok []) (.ok .null) 1000000) 1000000
        true).fetched = false) :=
  ⟨rfl,
    get_force_files_skips_freshness (Manager.mk (some "k") false 100 none)
      (FileSys.mk (some (.ok ⟨JVal.obj [], 0⟩)))
      (NetEnv.mk (.ok []) (.ok []) (.ok []) (.ok .null) 1000000) 1000000
      ⟨JVal.obj [], 0⟩ rfl⟩

end TF2Schema
